import Mathlib

/-!
Shallow embedding of `src/server/app.py` (AdSage backend).

The file models, directly from the source:
* the Python string primitives the code uses (`[:n]` slicing, `str.strip`,
  `str.split()`, `' '.join`), plus the third-party `unidecode` call at its
  interface boundary;
* `BedrockProcessor._clean_text`, the preprocessing step of
  `BedrockProcessor.generate_embedding`;
* the FAISS-backed vector store (`store_embedding`,
  `search_similar_embeddings`), with float arithmetic modelled over `ℚ`
  together with an explicit NaN marker where IEEE division by zero matters;
* `BedrockProcessor.construct_image_prompt` and
  `BedrockProcessor.generate_images` (the Bedrock `invoke_model` backend is an
  oracle parameter, as is the stream of `random.randint` draws);
* the content-defaulting logic of the `/generate-ad-images` route and the
  response logic of the `/search-similar-content` route (numpy truthiness of
  the query embedding modelled explicitly).
-/

namespace AdSage

/-- Python slicing `s[:n]`: the first `n` code points of `s`. -/
def pySlice (s : String) (n : Nat) : String := ⟨s.data.take n⟩

/-- Python `str.strip()`: remove leading and trailing whitespace. -/
def pyStrip (s : String) : String :=
  ⟨((s.data.dropWhile Char.isWhitespace).reverse.dropWhile
      Char.isWhitespace).reverse⟩

/-- Accumulator pass for `pySplitWs`: `cur` holds the characters of the piece
being built, in reverse. -/
def splitWsAux : List Char → List Char → List String
  | [], cur => if cur = [] then [] else [⟨cur.reverse⟩]
  | c :: rest, cur =>
    if c.isWhitespace then
      if cur = [] then splitWsAux rest []
      else ⟨cur.reverse⟩ :: splitWsAux rest []
    else splitWsAux rest (c :: cur)

/-- Python `str.split()` with no argument: split on whitespace runs,
discarding empty pieces. -/
def pySplitWs (s : String) : List String := splitWsAux s.data []

/-- Accumulator pass for `splitDot`. -/
def splitDotAux : List Char → List Char → List String
  | [], cur => [⟨cur.reverse⟩]
  | c :: rest, cur =>
    if c = '.' then ⟨cur.reverse⟩ :: splitDotAux rest []
    else splitDotAux rest (c :: cur)

/-- Python `text.split('.')`: split at every `'.'`, keeping empty pieces. -/
def splitDot (s : String) : List String := splitDotAux s.data []

/-- Python `sep.join(xs)`. -/
def pyJoin (sep : String) : List String → String
  | [] => ""
  | [x] => x
  | x :: y :: xs => x ++ sep ++ pyJoin sep (y :: xs)

/-- Interface model of the third-party `unidecode` transliteration
(`from unidecode import unidecode`): it maps a string to an ASCII string and
is the identity on ASCII input.  Every concrete input appearing in the claims
is ASCII, and no claim depends on how non-ASCII characters are
transliterated, so the boundary is modelled as the identity. -/
def unidecode (s : String) : String := s

/-- `BedrockProcessor.embedding_dimension` (src/server/app.py line 56). -/
def embedding_dimension : Nat := 1536

/-- `BedrockProcessor.max_prompt_length` (src/server/app.py line 65). -/
def max_prompt_length : Nat := 2048

/-- `BedrockProcessor._clean_text` (src/server/app.py lines 68-73):
`cleaned_text = unidecode(str(text or '')).strip()` followed by
`' '.join(cleaned_text.split())`.  The argument is a `String`, so the
`str(text or '')` None-guard is vacuous here. -/
def clean_text (text : String) : String :=
  let cleaned_text := pyStrip (unidecode text)
  pyJoin " " (pySplitWs cleaned_text)

/-- `max_length = max_length or self.max_prompt_length`
(src/server/app.py line 81): Python `or` replaces both `None` and the falsy
`0` by the default. -/
def resolveMaxLength (max_length : Option Nat) : Nat :=
  match max_length with
  | none => max_prompt_length
  | some k => if k = 0 then max_prompt_length else k

/-- The text actually sent to the embedding model by
`BedrockProcessor.generate_embedding` (src/server/app.py line 82):
`text = self._clean_text(text)[:max_length]`. -/
def embeddingInputText (text : String) (max_length : Option Nat) : String :=
  pySlice (clean_text text) (resolveMaxLength max_length)

/-- Modelled from the spec (section 4.1 `summarize`), for comparison with the
code's pre-embedding truncation: if the normalized text fits the budget it is
returned unchanged; otherwise the text is split on terminal `.` boundaries
and whole sentences (each with a trailing `.` re-appended) are greedily
accumulated while the cumulative length stays within the budget, falling back
to a hard character-level truncation when no sentence fits. -/
def specSummarize (text : String) (max_length : Nat) : String :=
  let n := clean_text text
  if n.length ≤ max_length then n
  else
    let sentences := splitDot n
    let acc := (sentences.foldl
      (fun (st : String × Bool) s =>
        if st.2 then st
        else
          let cand := st.1 ++ s ++ "."
          if cand.length ≤ max_length then (cand, false) else (st.1, true))
      ("", false)).1
    if acc = "" then pySlice n max_length else acc

example : clean_text "  One.   Twoooo. " = "One. Twoooo." := by decide
example : embeddingInputText "One. Twoooo." (some 6) = "One. T" := by decide
example : specSummarize "One. Twoooo." 6 = "One." := by decide

/-! ## Vector store (FAISS-backed state of `BedrockProcessor`)

Float arithmetic is modelled over `ℚ`; `FV` carries an explicit NaN marker
(`none`) for the one IEEE behaviour the code exercises: dividing by a zero
norm (`np.linalg.norm` of the all-zero vector is `0.0`, and `0.0 / 0.0` is
NaN, a warning rather than an exception in numpy).  The square root inside
`np.linalg.norm` is modelled by `Rat.sqrt`, which is exact on the perfect
squares that the claims evaluate; no claim depends on the value of an inexact
square root. -/

/-- A float value: `some q` for a finite value, `none` for NaN. -/
abbrev FV := Option ℚ

/-- Sum of squares of the entries, the square of the L2 norm (exact over
`ℚ`; zero exactly when every entry is zero). -/
def l2normSq (v : List ℚ) : ℚ := (v.map (fun x => x * x)).sum

/-- A vector as stored in / queried against the FAISS index:
`vec` for a finite-entry vector, `nanVec n` for a vector of `n` NaN entries
(what `embedding / np.linalg.norm(embedding)` produces when the norm is
zero). -/
inductive NormVec where
  | vec (v : List ℚ)
  | nanVec (n : Nat)
deriving DecidableEq, Repr

/-- `embedding / np.linalg.norm(embedding)` (src/server/app.py lines 123 and
248).  A zero norm happens exactly when the embedding is all zeros, and then
every component is `0.0 / 0.0` = NaN. -/
def normalizeVec (v : List ℚ) : NormVec :=
  if l2normSq v = 0 then NormVec.nanVec v.length
  else NormVec.vec (v.map (fun x => x / Rat.sqrt (l2normSq v)))

/-- A `self.vector_metadata` record (src/server/app.py lines 129-133). -/
structure VMeta where
  url : String
  text : String
  embedding_id : Nat
deriving DecidableEq, Repr

/-- The mutable store state of `BedrockProcessor`: `vector_index` is `none`
when FAISS initialization failed (src/server/app.py lines 57-62), otherwise
the list of vectors added to the `IndexFlatL2`; `vector_metadata` is the
parallel metadata list. -/
structure VectorStore where
  vector_index : Option (List NormVec)
  vector_metadata : List VMeta
deriving DecidableEq, Repr

/-- The store right after a successful `BedrockProcessor.__init__`. -/
def freshStore : VectorStore := ⟨some [], []⟩

/-- `BedrockProcessor.store_embedding` (src/server/app.py lines 103-140).
Returns the value the Python function returns (`None` on any failure, the
new record's index on success) together with the store state afterwards.
Under this model none of the operations in the `try` block raises: numpy
turns the zero-norm division into NaNs with a warning, and FAISS accepts NaN
vectors, so the `except` branch is dead. -/
def store_embedding (s : VectorStore) (url : String) (text : String)
    (embedding : Option (List ℚ)) : Option Nat × VectorStore :=
  match s.vector_index with
  | none => (none, s)
  | some idx =>
    match embedding with
    | none => (none, s)
    | some v =>
      if v.length ≠ embedding_dimension then (none, s)
      else
        let embedding_normalized := normalizeVec v
        let idx2 := idx ++ [embedding_normalized]
        let md := s.vector_metadata ++
          [⟨url, pySlice text 1000, s.vector_metadata.length⟩]
        (some (md.length - 1), ⟨some idx2, md⟩)

/-- Squared L2 distance between two index vectors; NaN if either has NaN
entries (`IndexFlatL2` search computes squared distances). -/
def distSq (a b : NormVec) : FV :=
  match a, b with
  | NormVec.vec x, NormVec.vec y =>
    some ((List.zipWith (fun u w => (u - w) * (u - w)) x y).sum)
  | _, _ => none

/-- Comparison on distances used to order search results; the NaN cases are
arbitrary (FAISS's behaviour on NaN distances is unspecified and no claim
exercises it). -/
def fvLe (a b : FV) : Bool :=
  match a, b with
  | some x, some y => decide (x ≤ y)
  | some _, none => true
  | none, some _ => false
  | none, none => true

/-- Stable insertion into a distance-sorted list (keeps earlier = smaller
insertion indices first among equal distances, as FAISS does). -/
def insertByDist (p : FV × Int) : List (FV × Int) → List (FV × Int)
  | [] => [p]
  | q :: rest =>
    if fvLe q.1 p.1 then q :: insertByDist p rest else p :: q :: rest

/-- Stable sort by distance. -/
def sortByDist : List (FV × Int) → List (FV × Int)
  | [] => []
  | p :: rest => insertByDist p (sortByDist rest)

/-- The padding distance FAISS uses for missing neighbours (`FLT_MAX`,
approximately `3.4e38`; the exact value is irrelevant because the paired
index `-1` is filtered out by the caller). -/
def fltMax : FV := some ((2 : ℚ) ^ 128)

/-- Interface model of `faiss.IndexFlatL2.search` on an index holding
`idx` vectors: returns exactly `k` `(squared-distance, index)` pairs, the
`i`-th being the `i`-th nearest stored vector (ties broken by insertion
order), padded with `(FLT_MAX, -1)` entries when fewer than `k` vectors are
stored. -/
def faissSearch (idx : List NormVec) (q : NormVec) (k : Nat) :
    List (FV × Int) :=
  let scored := idx.enum.map (fun p => (distSq p.2 q, (p.1 : Int)))
  (sortByDist scored).take k ++ List.replicate (k - idx.length) (fltMax, -1)

/-- A `/search-similar-content` search result as produced by
`search_similar_embeddings`: a metadata record and the similarity score
`1 / (1 + distance)`. -/
structure SearchResult where
  metadata : VMeta
  score : FV
deriving DecidableEq, Repr

/-- `1 / (1 + distance)` (src/server/app.py line 263); NaN propagates. -/
def fvScore (d : FV) : FV :=
  match d with
  | some x => some (1 / (1 + x))
  | none => none

/-- `BedrockProcessor.search_similar_embeddings`
(src/server/app.py lines 233-270). -/
def search_similar_embeddings (s : VectorStore)
    (query_embedding : Option (List ℚ)) (top_k : Nat) : List SearchResult :=
  match s.vector_index with
  | none => []
  | some idx =>
    match query_embedding with
    | none => []
    | some q =>
      if q.length ≠ embedding_dimension then []
      else
        let qn := normalizeVec q
        let pairs := faissSearch idx qn top_k
        pairs.foldl
          (fun results p =>
            if 0 ≤ p.2 ∧ p.2 < (s.vector_metadata.length : Int) then
              results ++
                [⟨s.vector_metadata.getD p.2.toNat ⟨"", "", 0⟩,
                  fvScore p.1⟩]
            else results)
          []

example :
    store_embedding freshStore "u" "t" (some [1, 2]) = (none, freshStore) :=
  by decide

/-! ## Prompt construction and image generation -/

/-- The leading directive component (src/server/app.py line 152). -/
def leadDirective : String := "Ultra-realistic image:"

/-- The creative-direction component (src/server/app.py line 154). -/
def creativeDirective : String := "Creative direction: Professional, modern design."

/-- The technical-specs component (src/server/app.py line 155). -/
def techDirective : String := "Technical specs: High-quality, crisp rendering."

/-- `BedrockProcessor.construct_image_prompt`
(src/server/app.py lines 142-164): clean and slice the context to 256 and
the user prompt to 128 characters; build the component list; append
`"Requirements: {user_prompt}"` when the (cleaned, sliced) user prompt is
truthy, i.e. non-empty; join with single spaces and slice to 512. -/
def construct_image_prompt (context : String) (user_prompt : String) :
    String :=
  let context := pySlice (clean_text context) 256
  let user_prompt := pySlice (clean_text user_prompt) 128
  let prompt_components :=
    [leadDirective, context, creativeDirective, techDirective]
  let prompt_components :=
    if user_prompt = "" then prompt_components
    else prompt_components ++ ["Requirements: " ++ user_prompt]
  pySlice (pyJoin " " prompt_components) 512

/-- The `native_request` payload built for one Titan image call
(src/server/app.py lines 183-196), flattened to its scalar fields. -/
structure ImageRequest where
  taskType : String
  text : String
  numberOfImages : Nat
  quality : String
  height : Nat
  width : Nat
  cfgScale : ℚ
  seed : Nat
deriving DecidableEq, Repr

/-- The `native_request` dictionary for a given prompt and seed
(src/server/app.py lines 183-196). -/
def nativeRequest (full_prompt : String) (seed : Nat) : ImageRequest :=
  ⟨"TEXT_IMAGE", full_prompt, 1, "standard", 1024, 1024, 10, seed⟩

/-- Outcome of one `bedrock_runtime.invoke_model` call for image generation,
as seen by the `try` block: `failure` when the call or response parsing
raised, `success images` when a response parsed, with `images = none` when
the parsed response has no `"images"` key. -/
inductive ImageCallResult where
  | failure
  | success (images : Option (List String))
deriving DecidableEq, Repr

/-- The sequence of `native_request` payloads that
`BedrockProcessor.generate_images` passes to `invoke_model` for a batch of
`num_images` requests (src/server/app.py lines 177-196).  `stream i` is the
value returned by the `i`-th call to `random.randint(0, 2147483647)`; the
source performs exactly one such call, before the loop, so only `stream 0`
is consumed. -/
def issuedRequests (stream : Nat → Nat) (context : String)
    (user_prompt : String) (num_images : Nat) : List ImageRequest :=
  let full_prompt := construct_image_prompt context user_prompt
  let seed := stream 0
  (List.range num_images).map (fun _ => nativeRequest full_prompt seed)

/-- `BedrockProcessor.generate_images` (src/server/app.py lines 166-231).
`invoke i req` is the outcome of the `invoke_model` call made in loop
iteration `i` (the backend is nondeterministic, so outcomes are indexed by
call occurrence); `stream` is the `random.randint` draw stream as in
`issuedRequests`.  Each iteration's `try` catches its own failure and the
loop continues; a successful response contributes its first non-empty image
(the inner `for ... break`). -/
def generate_images (invoke : Nat → ImageRequest → ImageCallResult)
    (stream : Nat → Nat) (context : String) (user_prompt : String)
    (num_images : Nat) : List String :=
  let full_prompt := construct_image_prompt context user_prompt
  let seed := stream 0
  (List.range num_images).foldl
    (fun generated_images i =>
      match invoke i (nativeRequest full_prompt seed) with
      | ImageCallResult.failure => generated_images
      | ImageCallResult.success none => generated_images
      | ImageCallResult.success (some images) =>
        match images.find? (fun img => !img.isEmpty) with
        | none => generated_images
        | some img => generated_images ++ [img])
    []

/-- The image (if any) that one `invoke_model` outcome contributes to the
batch result: the first non-empty image of a successful response. -/
def extractImage : ImageCallResult → Option String
  | ImageCallResult.failure => none
  | ImageCallResult.success none => none
  | ImageCallResult.success (some images) =>
    images.find? (fun img => !img.isEmpty)

/-! ## Route layer -/

/-- The default content string and URL-truthiness logic of the
`/generate-ad-images` route (src/server/app.py lines 311-319):
`content = 'Professional marketing design'`, then
`if url: content = WebContentExtractor.extract_website_content(url) or
content`.  `extract` is the (external) content extractor; `url = none`
models an absent `url` field, and Python's truthiness also treats the empty
string as absent. -/
def generate_ad_images_content (url : Option String)
    (extract : String → String) : String :=
  let content := "Professional marketing design"
  match url with
  | none => content
  | some u =>
    if u = "" then content
    else if extract u = "" then content else extract u

/-- Result of evaluating Python truthiness (`not x`) on an optional numpy
array: `ok b` when `not x` evaluates to `b`, `valueError` when it raises
`ValueError` (a numpy array with more than one element has no truth
value). -/
inductive NpTruth where
  | ok (b : Bool)
  | valueError
deriving DecidableEq, Repr

/-- `not query_embedding` where `query_embedding` is `None` or a numpy
array: `None` is falsy; an empty array is falsy; a one-element array has the
truth value of its element; a larger array raises `ValueError`. -/
def npNot (a : Option (List ℚ)) : NpTruth :=
  match a with
  | none => NpTruth.ok true
  | some [] => NpTruth.ok true
  | some [x] => NpTruth.ok (decide (x = 0))
  | some (_ :: _ :: _) => NpTruth.valueError

/-- Response of the `/search-similar-content` route: `ok` is the HTTP 200
body (`similar_content` as `(url, text, similarity_score)` triples),
`badRequest` the 400 response, `serverError` the 500 response produced by
the handler's broad `except`. -/
inductive SearchSimilarResponse where
  | ok (similar_content : List (String × String × FV))
  | badRequest
  | serverError
deriving DecidableEq, Repr

/-- The HTTP status code of a `/search-similar-content` response. -/
def statusCode : SearchSimilarResponse → Nat
  | SearchSimilarResponse.ok _ => 200
  | SearchSimilarResponse.badRequest => 400
  | SearchSimilarResponse.serverError => 500

/-- The `/search-similar-content` handler (src/server/app.py lines 350-387)
after the embedding call: `query_embedding` is what
`generate_embedding(query)` returned (`none` when it failed).  Line 363
evaluates `not query_embedding`; for a successful embedding with more than
one element this raises `ValueError`, which the handler's `except` turns
into a 500.  When the search returns a non-empty list, the response
comprehension evaluates `result.metadata` on a `dict` (lines 375-377),
raising `AttributeError`, again a 500; with an empty result list the
comprehension is empty and the 200 response is returned. -/
def search_similar_content (s : VectorStore)
    (query_embedding : Option (List ℚ)) (top_k : Nat) :
    SearchSimilarResponse :=
  match npNot query_embedding with
  | NpTruth.valueError => SearchSimilarResponse.serverError
  | NpTruth.ok true => SearchSimilarResponse.badRequest
  | NpTruth.ok false =>
    match search_similar_embeddings s query_embedding top_k with
    | [] => SearchSimilarResponse.ok []
    | _ :: _ => SearchSimilarResponse.serverError

/-! ## Helper lemmas -/

/-- Slicing never exceeds the requested length. -/
theorem pySlice_length_le (s : String) (n : Nat) : (pySlice s n).length ≤ n := by
  have : (pySlice s n).length = (s.data.take n).length := rfl
  rw [this, List.length_take]
  exact Nat.min_le_left n s.data.length

/-- Slicing a string that already fits the budget returns it unchanged. -/
theorem pySlice_of_length_le (s : String) (n : Nat) (h : s.length ≤ n) :
    pySlice s n = s :=
  String.ext (List.take_of_length_le h)

/-- The squared norm of the all-zero vector is zero. -/
theorem l2normSq_replicate_zero (n : Nat) :
    l2normSq (List.replicate n (0 : ℚ)) = 0 := by
  simp [l2normSq, List.map_replicate, List.sum_replicate]

/-- A fold over a replicated element the body ignores leaves the
accumulator unchanged. -/
theorem foldl_replicate_fixed {α β : Type} (f : β → α → β) (x : α)
    (hf : ∀ b, f b x = b) : ∀ (k : Nat) (b : β),
    (List.replicate k x).foldl f b = b
  | 0, _ => rfl
  | k + 1, b => by
    rw [List.replicate_succ, List.foldl_cons, hf]
    exact foldl_replicate_fixed f x hf k b

/-- The per-iteration collection loop of `generate_images`, expressed as a
`filterMap`: each iteration contributes exactly `extractImage` of its
backend outcome, independently of the other iterations. -/
theorem gen_images_foldl (g : Nat → ImageCallResult) : ∀ (l : List Nat)
    (acc : List String),
    l.foldl
      (fun generated_images i =>
        match g i with
        | ImageCallResult.failure => generated_images
        | ImageCallResult.success none => generated_images
        | ImageCallResult.success (some images) =>
          match images.find? (fun img => !img.isEmpty) with
          | none => generated_images
          | some img => generated_images ++ [img])
      acc
    = acc ++ l.filterMap (fun i => extractImage (g i))
  | [], acc => by simp
  | hd :: tl, acc => by
    rw [List.foldl_cons, List.filterMap_cons]
    cases h : g hd with
    | failure =>
      simp only [h, extractImage]
      exact gen_images_foldl g tl acc
    | success o =>
      cases o with
      | none =>
        simp only [h, extractImage]
        exact gen_images_foldl g tl acc
      | some images =>
        cases hf : images.find? (fun img => !img.isEmpty) with
        | none =>
          simp only [h, hf, extractImage]
          exact gen_images_foldl g tl acc
        | some img =>
          simp only [h, hf, extractImage]
          rw [gen_images_foldl g tl (acc ++ [img]), List.append_assoc]
          rfl

/-! ## Claims -/

/-- C1 (counterexample): with a draw stream returning `0, 1, 2, ...`, a
batch of two generation requests would under the claim carry the first two
draws `[0, 1]`; the code instead issues both requests with seed `0` — the
single pre-loop draw is shared, not re-drawn per request. -/
theorem c1_counterexample :
    (issuedRequests (fun i => i) "c" "p" 2).map ImageRequest.seed = [0, 0] ∧
    (issuedRequests (fun i => i) "c" "p" 2).map ImageRequest.seed ≠ [0, 1] := by
  decide

/-- C1 (amended): `generate_images` draws one random seed before the loop
(the first `random.randint` draw) and issues every request of the batch
with that same shared seed. -/
theorem c1_seed_drawn_once (stream : Nat → Nat) (context : String)
    (user_prompt : String) (num_images : Nat) :
    (issuedRequests stream context user_prompt num_images).map
        ImageRequest.seed
      = List.replicate num_images (stream 0) := by
  simp [issuedRequests, List.map_map, Function.comp, nativeRequest]

/-- C2 (code bug): a `POST /search-similar-content` whose query embedding is
generated successfully (a 1536-element vector) gets HTTP 500, not the
specified 200, because `not query_embedding` on a numpy array with more than
one element raises `ValueError`, which the handler's broad `except` converts
to a 500 response; the 400-on-embedding-failure half of the contract does
hold. -/
theorem c2_search_route_500 :
    search_similar_content freshStore (some (List.replicate 1536 (1 : ℚ))) 3
        = SearchSimilarResponse.serverError ∧
    statusCode (search_similar_content freshStore
        (some (List.replicate 1536 (1 : ℚ))) 3) = 500 ∧
    search_similar_content freshStore none 3
        = SearchSimilarResponse.badRequest ∧
    statusCode (search_similar_content freshStore none 3) = 400 := by
  have h : npNot (some (List.replicate 1536 (1 : ℚ)))
      = NpTruth.valueError := by
    rw [List.replicate_succ, List.replicate_succ]
    rfl
  have h1 : search_similar_content freshStore
      (some (List.replicate 1536 (1 : ℚ))) 3
      = SearchSimilarResponse.serverError := by
    unfold search_similar_content
    rw [h]
  exact ⟨h1, by rw [h1]; rfl, rfl, rfl⟩

/-- C3 (counterexample): on `"One. Twoooo."` with budget 6 the claimed
sentence-greedy summarization would return `"One."`; the code's
pre-embedding truncation is a hard character slice and returns `"One. T"`,
cutting mid-sentence. -/
theorem c3_counterexample :
    embeddingInputText "One. Twoooo." (some 6) = "One. T" ∧
    specSummarize "One. Twoooo." 6 = "One." ∧
    ("One. T" : String) ≠ "One." := by
  decide

/-- C3 (amended): the pre-embedding truncation step of
`generate_embedding` is a plain character-level slice of the cleaned text to
the resolved budget: the result never exceeds the budget, and whenever the
cleaned text already fits, it is passed through unchanged (no
sentence-boundary logic exists in the code). -/
theorem c3_hard_truncation (t : String) (m : Option Nat) :
    (embeddingInputText t m).length ≤ resolveMaxLength m ∧
    ((clean_text t).length ≤ resolveMaxLength m →
      embeddingInputText t m = clean_text t) := by
  constructor
  · exact pySlice_length_le _ _
  · intro h
    exact pySlice_of_length_le _ _ h

/-- C3 (witness): the theorem applied at `"abc"`, budget 10. -/
theorem c3_witness :
    (clean_text "abc").length ≤ resolveMaxLength (some 10) ∧
    embeddingInputText "abc" (some 10) = clean_text "abc" :=
  ⟨by decide, (c3_hard_truncation "abc" (some 10)).2 (by decide)⟩

/-- C4 (counterexample): inserting the all-zero vector of dimension 1536 into
a fresh store does not fail with `InvalidVector`: `store_embedding` returns
record index 0, appends the all-NaN vector produced by the zero-norm
division to the index, and appends a metadata record. -/
theorem c4_counterexample :
    store_embedding freshStore "u" "t" (some (List.replicate 1536 (0 : ℚ)))
        = (some 0, ⟨some [NormVec.nanVec 1536], [⟨"u", "t", 0⟩]⟩) ∧
    (store_embedding freshStore "u" "t"
        (some (List.replicate 1536 (0 : ℚ)))).1 ≠ none := by
  have key : ∀ (v : List ℚ), v.length = embedding_dimension →
      l2normSq v = 0 →
      store_embedding freshStore "u" "t" (some v)
        = (some 0, ⟨some [NormVec.nanVec v.length], [⟨"u", "t", 0⟩]⟩) := by
    intro v hl h0
    unfold store_embedding normalizeVec
    dsimp only [freshStore]
    rw [if_neg (fun hc => hc hl), if_pos h0]
    have ht : pySlice "t" 1000 = "t" := by decide
    rw [ht]
    rfl
  have hr := key (List.replicate 1536 (0 : ℚ)) (List.length_replicate _ _)
    (l2normSq_replicate_zero 1536)
  rw [List.length_replicate] at hr
  exact ⟨hr, by rw [hr]; exact fun hc => Option.noConfusion hc⟩

/-- C4 (amended): a zero-norm embedding of the store's fixed dimension is
not rejected: the division by the zero L2 norm yields a NaN vector, which is
added to the index, a metadata record is appended (the record count grows by
one), and the new record's index is returned. -/
theorem c4_zero_norm_stored (s : VectorStore) (idx : List NormVec)
    (url text : String) (v : List ℚ) (hidx : s.vector_index = some idx)
    (hlen : v.length = embedding_dimension) (hnorm : l2normSq v = 0) :
    store_embedding s url text (some v)
      = (some s.vector_metadata.length,
          ⟨some (idx ++ [NormVec.nanVec v.length]),
            s.vector_metadata ++
              [⟨url, pySlice text 1000, s.vector_metadata.length⟩]⟩) := by
  obtain ⟨vi, metadata⟩ := s
  have hvi : vi = some idx := hidx
  subst hvi
  unfold store_embedding normalizeVec
  dsimp only
  rw [if_neg (fun hc => hc hlen), if_pos hnorm]
  simp [List.length_append]

/-- C4 (witness): the amended theorem applied to a fresh store and the
all-zero vector of dimension 1536. -/
theorem c4_witness :
    store_embedding freshStore "u" "t" (some (List.replicate 1536 (0 : ℚ)))
      = (some freshStore.vector_metadata.length,
          ⟨some ([] ++
              [NormVec.nanVec (List.replicate 1536 (0 : ℚ)).length]),
            freshStore.vector_metadata ++
              [⟨"u", pySlice "t" 1000,
                freshStore.vector_metadata.length⟩]⟩) :=
  c4_zero_norm_stored freshStore [] "u" "t" (List.replicate 1536 (0 : ℚ))
    rfl (List.length_replicate _ _) (l2normSq_replicate_zero 1536)

/-- C5 (counterexample): with context `"Coffee shop"` and user prompt
`"red"`, the built prompt places the user-specific `"Requirements:"` clause
last, not first, and the style directives in the middle — the claimed order
(user clause first, style directive last) does not hold. -/
theorem c5_counterexample :
    construct_image_prompt "Coffee shop" "red"
        = "Ultra-realistic image: Coffee shop Creative direction: Professional, modern design. Technical specs: High-quality, crisp rendering. Requirements: red" ∧
    pySlice (construct_image_prompt "Coffee shop" "red") 13
        ≠ "Requirements:" := by
  decide

/-- C5 (amended): `construct_image_prompt` assembles, joined by single
spaces: the leading directive, then the truncated context, then the
creative-direction directive, then the technical-specs directive, and
appends the `"Requirements:"` user clause last whenever the cleaned,
128-char-truncated user prompt is non-empty; the whole string is then
sliced to 512 characters.  (There is no retrieval-context clause.) -/
theorem c5_component_order (context user_prompt : String) :
    construct_image_prompt context user_prompt
      = pySlice
          (leadDirective ++ " " ++ pySlice (clean_text context) 256 ++ " " ++
            creativeDirective ++ " " ++ techDirective ++
            (if pySlice (clean_text user_prompt) 128 = "" then ""
              else " " ++
                ("Requirements: " ++ pySlice (clean_text user_prompt) 128)))
          512 := by
  unfold construct_image_prompt
  by_cases h : pySlice (clean_text user_prompt) 128 = "" <;>
    simp [h, pyJoin, String.append_assoc]

/-- C6 (counterexample): with no URL supplied, the pipeline's context is the
string `"Professional marketing design"`, not the claimed
`"Generic advertisement design"`. -/
theorem c6_counterexample :
    generate_ad_images_content none (fun _ => "")
        = "Professional marketing design" ∧
    ("Professional marketing design" : String)
        ≠ "Generic advertisement design" :=
  ⟨rfl, by decide⟩

/-- C6 (amended): whenever no URL is supplied or content extraction yields
the empty string, the `/generate-ad-images` pipeline proceeds with exactly
the default content string `"Professional marketing design"`. -/
theorem c6_default_content (extract : String → String) (u : String)
    (h : extract u = "") :
    generate_ad_images_content none extract
        = "Professional marketing design" ∧
    generate_ad_images_content (some u) extract
        = "Professional marketing design" := by
  refine ⟨rfl, ?_⟩
  unfold generate_ad_images_content
  by_cases hu : u = "" <;> simp [hu, h]

/-- C6 (witness): the amended theorem applied to an extractor that yields
nothing. -/
theorem c6_witness :
    generate_ad_images_content none (fun _ => "")
        = "Professional marketing design" ∧
    generate_ad_images_content (some "http://unreachable.invalid")
        (fun _ => "") = "Professional marketing design" :=
  c6_default_content (fun _ => "") "http://unreachable.invalid" rfl

/-- C7: an embedding whose length differs from the store's fixed dimension
1536 is rejected by both `store_embedding` (which returns `None` and leaves
the store — index and metadata — unchanged) and
`search_similar_embeddings` (which returns the empty list). -/
theorem c7_dimension_mismatch (s : VectorStore) (url text : String)
    (v : List ℚ) (top_k : Nat) (h : v.length ≠ embedding_dimension) :
    store_embedding s url text (some v) = (none, s) ∧
    search_similar_embeddings s (some v) top_k = [] := by
  unfold store_embedding search_similar_embeddings
  cases hidx : s.vector_index with
  | none => exact ⟨rfl, rfl⟩
  | some idx => simp [h]

/-- C7 (witness): the theorem applied to a fresh store and a 1-element
vector. -/
theorem c7_witness :
    store_embedding freshStore "u" "t" (some [1]) = (none, freshStore) ∧
    search_similar_embeddings freshStore (some [1]) 3 = [] :=
  c7_dimension_mismatch freshStore "u" "t" [1] 3 (by decide)

/-- C8: the image-generation batch is per-request failure tolerant: the
batch result is exactly the `filterMap` of the per-iteration outcomes over
all `num_images` iterations — a failed backend call contributes nothing and
does not abort later iterations, the function is total (never propagates an
exception), returns exactly the images extracted from successful responses,
and returns `[]` when every attempt fails. -/
theorem c8_batch_failure_tolerant
    (invoke : Nat → ImageRequest → ImageCallResult) (stream : Nat → Nat)
    (context user_prompt : String) (num_images : Nat) :
    generate_images invoke stream context user_prompt num_images
      = (List.range num_images).filterMap
          (fun i => extractImage (invoke i
            (nativeRequest (construct_image_prompt context user_prompt)
              (stream 0)))) := by
  unfold generate_images
  exact (gen_images_foldl
      (fun i => invoke i
        (nativeRequest (construct_image_prompt context user_prompt)
          (stream 0)))
      (List.range num_images) []).trans (by simp)

/-- C9: querying a store that was never initialized or holds zero records
returns the empty list for every correctly-dimensioned query and every
`top_k` (FAISS pads missing neighbours with index `-1`, which the metadata
bound check filters out). -/
theorem c9_empty_store_query (s : VectorStore) (q : List ℚ) (top_k : Nat)
    (hq : q.length = embedding_dimension)
    (h : s.vector_index = none ∨
      (s.vector_index = some [] ∧ s.vector_metadata = [])) :
    search_similar_embeddings s (some q) top_k = [] := by
  unfold search_similar_embeddings
  rcases h with h | ⟨h1, h2⟩
  · rw [h]
  · simp only [h1, h2, hq, ne_eq, not_true_eq_false, if_false,
      faissSearch, sortByDist, List.enum_nil, List.map_nil, List.take_nil,
      List.length_nil, Nat.sub_zero, List.nil_append, List.length_nil]
    exact foldl_replicate_fixed _ _ (fun b => by simp) top_k []

/-- C9 (witness): the theorem applied to a fresh (empty) store, a
1536-dimensional query, and `top_k = 5`. -/
theorem c9_witness :
    search_similar_embeddings freshStore
      (some (List.replicate 1536 (1 : ℚ))) 5 = [] :=
  c9_empty_store_query freshStore (List.replicate 1536 (1 : ℚ)) 5
    (List.length_replicate _ _) (Or.inr ⟨rfl, rfl⟩)

/-- C10: for all inputs, the prompt built by `construct_image_prompt` is at
most 512 characters long (the final slice is a hard ceiling). -/
theorem c10_prompt_length_le_512 (context user_prompt : String) :
    (construct_image_prompt context user_prompt).length ≤ 512 := by
  unfold construct_image_prompt
  exact pySlice_length_le _ _

end AdSage
